/-
  Verification of the robobar OPC-UA client core (`opc_client.py`) against its
  natural-language specification.

  The Python source is shallowly embedded: pure helpers become Lean functions,
  Python list indexing (including negative indices and IndexError) is modelled
  by `pyListGet` returning `Option`, exceptions are modelled by `Except String`
  (`.error` = a raised Python exception escaping the modelled region), and the
  node reads/writes performed over the OPC-UA transport are modelled by an
  environment `OpcEnv` carrying the outcome of each node access, together with
  an explicit access log (`List NodeAccess`) recording which node accesses were
  attempted and in which order.
-/
import Mathlib

namespace Robobar

/-- Python list indexing `xs[i]`: non-negative indices from the front,
negative indices from the back, out-of-range yields `none` (IndexError). -/
def pyListGet (xs : List α) (i : Int) : Option α :=
  if 0 ≤ i then xs[i.toNat]?
  else if i.natAbs ≤ xs.length then xs[xs.length - i.natAbs]?
  else none

/-- The `ReturnCodes` enum of `opc_client.py`. -/
inductive ReturnCodes where
  | OK
  | NOK
  | TIMEOUT
  | NO_CONNECTION
deriving DecidableEq, Repr

/-- Numeric values of the `ReturnCodes` enum members. -/
def ReturnCodes.value : ReturnCodes → Int
  | .OK => 0
  | .NOK => -1
  | .TIMEOUT => -2
  | .NO_CONNECTION => -3

/-! ## Circular buffer extractor (`get_items_from_circular_buffer`) -/

/-- The physical buffer index computed by one iteration of the loop body of
`get_items_from_circular_buffer`: `buffer_index = index_of_first_item +
queue_index`, wrapped via `(buffer_index - index_of_buffer_end - 1) +
index_of_buffer_start` when it exceeds `index_of_buffer_end`. -/
def circular_buffer_index (index_of_first_item index_of_buffer_start
    index_of_buffer_end : Int) (queue_index : Nat) : Int :=
  let buffer_index := index_of_first_item + queue_index
  if buffer_index > index_of_buffer_end then
    (buffer_index - index_of_buffer_end - 1) + index_of_buffer_start
  else
    buffer_index

/-- The `for queue_index in range(queue_length)` loop of
`get_items_from_circular_buffer`, unrolled as structural recursion on the
number of remaining iterations; `q` is the current `queue_index`.
A failing list access raises IndexError, aborting the whole call. -/
def get_items_go (buffer : List α) (index_of_first_item index_of_buffer_start
    index_of_buffer_end : Int) : Nat → Nat → Except String (List α)
  | _, 0 => .ok []
  | q, n + 1 =>
    match pyListGet buffer
        (circular_buffer_index index_of_first_item index_of_buffer_start
          index_of_buffer_end q) with
    | none => .error "IndexError"
    | some item =>
      match get_items_go buffer index_of_first_item index_of_buffer_start
          index_of_buffer_end (q + 1) n with
      | .ok rest => .ok (item :: rest)
      | .error e => .error e

/-- Embeds `RobobarOpcClient.get_items_from_circular_buffer`: extracts the
`queue_length` currently pushed items from the circular buffer, starting at
`index_of_first_item` and wrapping past `index_of_buffer_end` back to
`index_of_buffer_start`.  Python `range` of a negative length is empty,
hence `Int.toNat`. -/
def get_items_from_circular_buffer (buffer : List α)
    (index_of_first_item queue_length index_of_buffer_start
      index_of_buffer_end : Int) : Except String (List α) :=
  get_items_go buffer index_of_first_item index_of_buffer_start
    index_of_buffer_end 0 queue_length.toNat

/-! ## BCD timestamp decoder -/

/-- The `VALUE_NAMES` tuple of `get_datetime_dict_from_byte_array`. -/
def VALUE_NAMES : List String :=
  ["year", "month", "day", "hours", "minutes", "seconds"]

/-- The `for byte_index, dt_byte in enumerate(byte_array)` loop of
`get_datetime_dict_from_byte_array`; `i` is the current `byte_index`.  The
resulting Python dict is modelled as its association list in insertion
order (all inserted keys are distinct). -/
def dtdict_go : List Nat → Nat → List (String × Nat)
  | [], _ => []
  | dt_byte :: rest, i =>
    if i > 5 then []
    else
      let high := dt_byte >>> 4
      let low := dt_byte &&& 0xF
      let number := 10 * high + low
      let number := if VALUE_NAMES.getD i "" = "year" then number + 2000
        else number
      (VALUE_NAMES.getD i "", number) :: dtdict_go rest (i + 1)

/-- Embeds `RobobarOpcClient.get_datetime_dict_from_byte_array`: converts
the PLC `Date_and_Time` byte array into a dict keyed by `VALUE_NAMES`. -/
def get_datetime_dict_from_byte_array (byte_array : List Nat) :
    List (String × Nat) :=
  dtdict_go byte_array 0

/-- Zero padding as performed by the Python format specifier `0Nd` on a
non-negative integer: pad the decimal rendering with leading zeros up to
`width`. -/
def pyFormatPad (width : Nat) (n : Nat) : String :=
  let s := Nat.repr n
  String.mk (List.replicate (width - s.length) '0') ++ s

/-- Embeds `RobobarOpcClient.get_datetime_string`: renders the dash-joined
Python f-string with format specifiers `year:04d`, `month:02d`, `day:02d`,
`hours:02d`, `minutes:02d`, `seconds:02d`. -/
def get_datetime_string (year month day hours minutes seconds : Nat) : String :=
  pyFormatPad 4 year ++ "-" ++ pyFormatPad 2 month ++ "-" ++
    pyFormatPad 2 day ++ "-" ++ pyFormatPad 2 hours ++ "-" ++
    pyFormatPad 2 minutes ++ "-" ++ pyFormatPad 2 seconds

/-! ## Raw PLC record types (fields actually consumed by the accessors) -/

/-- Raw drink-queue / pickup-slot item as read from `"Drink_DB"`; the
`prepStartAt` field is passed through verbatim, modelled as `Int`. -/
structure DrinkRec where
  orderId : Int
  drinkTypeId : Int
  prepStartAt : Int
  pickedUp : Bool
deriving DecidableEq, Repr

/-- Raw `parameters` sub-structure of a drink type. -/
structure DrinkParamsRec where
  showParameters : Bool
  coffeeStrength : Int
  volumeInMl : Int
  milkPercentage : Int
deriving DecidableEq, Repr

/-- Raw drink-type record as read from `"Drink_DB"."drinkTypes"`. -/
structure DrinkTypeRec where
  drinkName : String
  drinkEnabled : Bool
  postmixDrink : String
  conveyorDrink : String
  coffeeDrink : String
  iceOption : Bool
  volumeOption : Bool
  parameters : DrinkParamsRec
  preparationTime : Int
deriving DecidableEq, Repr

/-- JSON-ready queue/pickup drink entry produced by the accessors. -/
structure DrinkJson where
  drinkOrderId : Int
  drinkTypeId : Int
  prepStartedAt : Int
deriving DecidableEq, Repr

/-- JSON-ready drink-type entry produced by `get_drink_types_json`. -/
structure DrinkTypeJson where
  id : Nat
  name : String
  enabled : Bool
  soft : Bool
  alcohol : Bool
  coffee : Bool
  iceOption : Bool
  volumeOption : Bool
  showParameters : Bool
  coffeeStrength : Int
  volumeInMl : Int
  milkPercentage : Int
  prepTimeInSeconds : ℚ
deriving DecidableEq, Repr

/-- JSON-ready `drinkInProgress` object produced by `get_prep_drink_json`. -/
structure PrepDrinkJson where
  drinkOrderId : Int
  drinkTypeId : Int
  prepStartedAt : String
  prepDoneAt : String
deriving DecidableEq, Repr

/-- JSON-ready `newOrderStatus` object produced by `get_new_order_status`. -/
structure NewOrderStatusJson where
  orderPushedSuccessfully : Bool
  pushedOrderNumber : Int
deriving DecidableEq, Repr

/-! ## Transport environment and access log -/

/-- One attempted node access over the OPC-UA transport: a read, a boolean
write, or an integer write (with the value written). -/
inductive NodeAccess where
  | readN (node : String)
  | writeB (node : String) (value : Bool)
  | writeI (node : String) (value : Int)
deriving DecidableEq, Repr

/-- Whether a node access is a write. -/
def NodeAccess.isWrite : NodeAccess → Bool
  | .readN _ => false
  | .writeB _ _ => true
  | .writeI _ _ => true

/-- The state of the OPC-UA transport as seen by one domain operation: the
session flag `connected` plus the outcome of each node read/write the
operation may attempt (`.error` = the transport raises an exception).
`poll_trigger k` is the outcome of the `k`-th read of the
`pushNewOrderToQueue` trigger node inside the polling loop of
`push_new_drink`. -/
structure OpcEnv where
  connected : Bool
  queue_items : Except String (List DrinkRec)
  queue_start_index : Except String Int
  queue_end_index : Except String Int
  current_queue_length : Except String Int
  queue_read_index : Except String Int
  drink_types : Except String (List DrinkTypeRec)
  pickup_drinks : Except String (List DrinkRec)
  prep_drink : Fin 2 → Except String DrinkRec
  prep_startAt : Fin 2 → Except String (List Nat)
  prep_doneAt : Fin 2 → Except String (List Nat)
  plc_time : Except String (List Nat)
  order_pushed_successfully : Except String Bool
  success_order_number : Except String Int
  write_use_ice : Except String Unit
  write_drink_size : Except String Unit
  write_drink_type_id : Except String Unit
  write_trigger : Except String Unit
  poll_trigger : Nat → Except String Bool

/-- Result of a domain operation: either an uncaught Python exception
escaping the operation (`.error`), or a `(ReturnCodes, data-or-None)` pair;
paired with the log of node accesses attempted. -/
abbrev OpResult (α : Type) :=
  Except String (ReturnCodes × Option α) × List NodeAccess

/-! ## Domain read accessors -/

/-- Embeds `RobobarOpcClient.get_queue_drinks_json`: guarded by `connected`;
reads
the five queue nodes inside `try` (any read failure → `(NOK, None)`), then
extracts the live items from the circular buffer (outside the `try`: an
IndexError there escapes) and maps them to JSON entries. -/
def get_queue_drinks_json (env : OpcEnv) : OpResult (List DrinkJson) :=
  if env.connected = false then (.ok (.NO_CONNECTION, none), [])
  else
    match env.queue_items with
    | .error _ => (.ok (.NOK, none), [.readN "drinkQueue.items"])
    | .ok queue_items_array =>
      match env.queue_start_index with
      | .error _ => (.ok (.NOK, none),
          [.readN "drinkQueue.items", .readN "drinkQueue.firstItemIndex"])
      | .ok queue_start_index =>
        match env.queue_end_index with
        | .error _ => (.ok (.NOK, none),
            [.readN "drinkQueue.items", .readN "drinkQueue.firstItemIndex",
             .readN "drinkQueue.lastItemIndex"])
        | .ok queue_end_index =>
          match env.current_queue_length with
          | .error _ => (.ok (.NOK, none),
              [.readN "drinkQueue.items", .readN "drinkQueue.firstItemIndex",
               .readN "drinkQueue.lastItemIndex",
               .readN "drinkQueue.currentQueueLength"])
          | .ok current_queue_length =>
            match env.queue_read_index with
            | .error _ => (.ok (.NOK, none),
                [.readN "drinkQueue.items", .readN "drinkQueue.firstItemIndex",
                 .readN "drinkQueue.lastItemIndex",
                 .readN "drinkQueue.currentQueueLength",
                 .readN "drinkQueue.readIndex"])
            | .ok queue_read_index =>
              let log := [.readN "drinkQueue.items",
                NodeAccess.readN "drinkQueue.firstItemIndex",
                .readN "drinkQueue.lastItemIndex",
                .readN "drinkQueue.currentQueueLength",
                .readN "drinkQueue.readIndex"]
              match get_items_from_circular_buffer queue_items_array
                  queue_read_index current_queue_length queue_start_index
                  queue_end_index with
              | .error e => (.error e, log)
              | .ok queue_drinks =>
                (.ok (.OK, some (queue_drinks.map (fun drink =>
                  { drinkOrderId := drink.orderId,
                    drinkTypeId := drink.drinkTypeId,
                    prepStartedAt := drink.prepStartAt }))), log)

/-- Field mapping of one drink type in `get_drink_types_json`. -/
def drink_type_to_json (ii : Nat) (drink_type : DrinkTypeRec) : DrinkTypeJson :=
  { id := ii,
    name := drink_type.drinkName,
    enabled := drink_type.drinkEnabled,
    soft := drink_type.postmixDrink ≠ "" ∧ drink_type.conveyorDrink = "",
    alcohol := drink_type.conveyorDrink ≠ "",
    coffee := drink_type.coffeeDrink ≠ "",
    iceOption := drink_type.iceOption,
    volumeOption := drink_type.volumeOption,
    showParameters := drink_type.parameters.showParameters,
    coffeeStrength := drink_type.parameters.coffeeStrength,
    volumeInMl := drink_type.parameters.volumeInMl,
    milkPercentage := drink_type.parameters.milkPercentage,
    prepTimeInSeconds := (drink_type.preparationTime : ℚ) / 1000 }

/-- Embeds `RobobarOpcClient.get_drink_types_json`: guarded by `connected`;
a single
node read inside `try`, then a pure field mapping over the enumerated list. -/
def get_drink_types_json (env : OpcEnv) : OpResult (List DrinkTypeJson) :=
  if env.connected = false then (.ok (.NO_CONNECTION, none), [])
  else
    match env.drink_types with
    | .error _ => (.ok (.NOK, none), [.readN "drinkTypes"])
    | .ok drink_types =>
      (.ok (.OK, some (drink_types.enum.map
          (fun p => drink_type_to_json p.1 p.2))),
        [.readN "drinkTypes"])

/-- Embeds `RobobarOpcClient.get_pickup_drinks_json`: guarded by
`connected`; a
single node read inside `try`, then keeps only slots with `orderId != 0 and
not pickedUp`, keyed by their physical array index. -/
def get_pickup_drinks_json (env : OpcEnv) : OpResult (List (Nat × DrinkJson)) :=
  if env.connected = false then (.ok (.NO_CONNECTION, none), [])
  else
    match env.pickup_drinks with
    | .error _ => (.ok (.NOK, none), [.readN "pickUpDrinks"])
    | .ok pickup_drinks =>
      (.ok (.OK, some (pickup_drinks.enum.filterMap (fun p =>
          if p.2.orderId ≠ 0 ∧ p.2.pickedUp = false then
            some (p.1, { drinkOrderId := p.2.orderId,
                         drinkTypeId := p.2.drinkTypeId,
                         prepStartedAt := p.2.prepStartAt })
          else none))),
        [.readN "pickUpDrinks"])

/-- Looks up the six timestamp fields of a decoded datetime dict and renders
them with `get_datetime_string`; a missing key is a Python `KeyError`. -/
def datetime_string_of_dict (date_dict : List (String × Nat)) :
    Except String String :=
  match date_dict.lookup "year", date_dict.lookup "month",
      date_dict.lookup "day", date_dict.lookup "hours",
      date_dict.lookup "minutes", date_dict.lookup "seconds" with
  | some y, some mo, some d, some h, some mi, some s =>
    .ok (get_datetime_string y mo d h mi s)
  | _, _, _, _, _, _ => .error "KeyError"

/-- Embeds `RobobarOpcClient.get_current_plc_time`: guarded by `connected`;
a single
node read inside `try`, then BCD decoding and string rendering outside the
`try` (a `KeyError` on a short byte array escapes). -/
def get_current_plc_time (env : OpcEnv) : OpResult String :=
  if env.connected = false then (.ok (.NO_CONNECTION, none), [])
  else
    match env.plc_time with
    | .error _ => (.ok (.NOK, none), [.readN "currentTime"])
    | .ok current_plc_time_byte_array =>
      match datetime_string_of_dict
          (get_datetime_dict_from_byte_array current_plc_time_byte_array) with
      | .error e => (.error e, [.readN "currentTime"])
      | .ok current_plc_time_string =>
        (.ok (.OK, some current_plc_time_string), [.readN "currentTime"])

/-- Embeds `RobobarOpcClient.get_prep_drink_json`: guarded by `connected`;
indexes
the three 2-element node lists with the Python index `side` (negative
indices wrap; an out-of-range `side` raises IndexError inside the `try`,
before any node read), reads the three nodes inside `try`, then decodes the
two timestamps outside the `try`. -/
def get_prep_drink_json (env : OpcEnv) (side : Int) : OpResult PrepDrinkJson :=
  if env.connected = false then (.ok (.NO_CONNECTION, none), [])
  else
    match pyListGet [env.prep_drink 0, env.prep_drink 1] side with
    | none => (.ok (.NOK, none), [])
    | some (.error _) => (.ok (.NOK, none), [.readN "prepDrink"])
    | some (.ok prep_drink) =>
      match pyListGet [env.prep_startAt 0, env.prep_startAt 1] side with
      | none => (.ok (.NOK, none), [.readN "prepDrink"])
      | some (.error _) => (.ok (.NOK, none),
          [.readN "prepDrink", .readN "prepDrink.prepStartAt"])
      | some (.ok prep_startAt_bytes) =>
        match pyListGet [env.prep_doneAt 0, env.prep_doneAt 1] side with
        | none => (.ok (.NOK, none),
            [.readN "prepDrink", .readN "prepDrink.prepStartAt"])
        | some (.error _) => (.ok (.NOK, none),
            [.readN "prepDrink", .readN "prepDrink.prepStartAt",
             .readN "prepDrink.prepDoneAt"])
        | some (.ok prep_doneAt_bytes) =>
          let log := [.readN "prepDrink",
            NodeAccess.readN "prepDrink.prepStartAt",
            .readN "prepDrink.prepDoneAt"]
          match datetime_string_of_dict
              (get_datetime_dict_from_byte_array prep_startAt_bytes),
            datetime_string_of_dict
              (get_datetime_dict_from_byte_array prep_doneAt_bytes) with
          | .ok startStr, .ok doneStr =>
            (.ok (.OK, some { drinkOrderId := prep_drink.orderId,
                              drinkTypeId := prep_drink.drinkTypeId,
                              prepStartedAt := startStr,
                              prepDoneAt := doneStr }), log)
          | .error e, _ => (.error e, log)
          | _, .error e => (.error e, log)

/-! ## Order submission protocol -/

/-- Embeds `RobobarOpcClient.get_new_order_status`: guarded by `connected`;
reads the
two acknowledgement nodes inside `try`. -/
def get_new_order_status (env : OpcEnv) : OpResult NewOrderStatusJson :=
  if env.connected = false then (.ok (.NO_CONNECTION, none), [])
  else
    match env.order_pushed_successfully with
    | .error _ => (.ok (.NOK, none), [.readN "orderPushedSuccessfully"])
    | .ok order_pushed_successfully =>
      match env.success_order_number with
      | .error _ => (.ok (.NOK, none),
          [.readN "orderPushedSuccessfully", .readN "successOrderNumber"])
      | .ok success_order_number =>
        (.ok (.OK, some { orderPushedSuccessfully := order_pushed_successfully,
                          pushedOrderNumber := success_order_number }),
          [.readN "orderPushedSuccessfully", .readN "successOrderNumber"])

/-- The polling loop of `push_new_drink`: starting right after the 100 ms
settle delay, while less than 5000 ms have elapsed it reads the trigger node
(`k`-th poll, NOT inside any `try`: a transport exception escapes raw); a
`False` reading delegates to `get_new_order_status`; otherwise it sleeps
500 ms and polls again.  Once 5000 ms have elapsed it returns
`(TIMEOUT, None)`. -/
def push_poll_loop (env : OpcEnv) (elapsed_ms : Nat) (k : Nat) :
    OpResult NewOrderStatusJson :=
  if h : elapsed_ms < 5000 then
    match env.poll_trigger k with
    | .error e => (.error e, [.readN "pushNewOrderToQueue"])
    | .ok v =>
      if v = false then
        let r := get_new_order_status env
        (r.1, .readN "pushNewOrderToQueue" :: r.2)
      else
        let r := push_poll_loop env (elapsed_ms + 500) (k + 1)
        (r.1, .readN "pushNewOrderToQueue" :: r.2)
  else (.ok (.TIMEOUT, none), [])
termination_by 5000 - elapsed_ms
decreasing_by omega

/-- Embeds `RobobarOpcClient.push_new_drink(drink_type_id, new_order_use_ice,
drink_size)`: writes `newOrderUseIce` (bool), `newOrderDrinkSizeId` (int),
`newOrderDrinkTypeId` (int) and then the `pushNewOrderToQueue` trigger set
to `True`, inside one `try` (any write failure → `(NOK, None)`, later
writes not attempted, no retry), then sleeps 100 ms and enters the polling
loop. -/
def push_new_drink (env : OpcEnv) (drink_type_id : Int)
    (new_order_use_ice : Bool) (drink_size : Int) :
    OpResult NewOrderStatusJson :=
  match env.write_use_ice with
  | .error _ => (.ok (.NOK, none), [.writeB "newOrderUseIce" new_order_use_ice])
  | .ok _ =>
    match env.write_drink_size with
    | .error _ => (.ok (.NOK, none),
        [.writeB "newOrderUseIce" new_order_use_ice,
         .writeI "newOrderDrinkSizeId" drink_size])
    | .ok _ =>
      match env.write_drink_type_id with
      | .error _ => (.ok (.NOK, none),
          [.writeB "newOrderUseIce" new_order_use_ice,
           .writeI "newOrderDrinkSizeId" drink_size,
           .writeI "newOrderDrinkTypeId" drink_type_id])
      | .ok _ =>
        match env.write_trigger with
        | .error _ => (.ok (.NOK, none),
            [.writeB "newOrderUseIce" new_order_use_ice,
             .writeI "newOrderDrinkSizeId" drink_size,
             .writeI "newOrderDrinkTypeId" drink_type_id,
             .writeB "pushNewOrderToQueue" true])
        | .ok _ =>
          let r := push_poll_loop env 0 0
          (r.1, [.writeB "newOrderUseIce" new_order_use_ice,
                 .writeI "newOrderDrinkSizeId" drink_size,
                 .writeI "newOrderDrinkTypeId" drink_type_id,
                 .writeB "pushNewOrderToQueue" true] ++ r.2)

/-! ## Device session lifecycle (`create_and_maintain_connection`) -/

/-- Phase of the `create_and_maintain_connection` loop: attempting to
connect, monitoring the live connection, or closing it after a monitoring
failure. -/
inductive Phase where
  | connecting
  | monitoring
  | closing
deriving DecidableEq, Repr

/-- Observable state of the device session: current loop phase and the
shared `connected` flag. -/
structure SessionState where
  phase : Phase
  connected : Bool
deriving DecidableEq, Repr

/-- Initial state: class attribute `connected = False`, loop entered at the
connection attempt. -/
def initialSessionState : SessionState :=
  { phase := .connecting, connected := false }

/-- Outcomes of the actions the loop performs in its current phase. -/
structure LoopEvent where
  connect_ok : Bool
  load_types_ok : Bool
  init_nodes_ok : Bool
  monitor_ok : Bool
  close_ok : Bool
deriving DecidableEq, Repr

/-- One step of `create_and_maintain_connection`, returning the successor
state and the `time.sleep` duration (ms) taken on that step:
in `connecting`, `connect()`, `load_type_definitions()` and `_init_nodes()`
must all succeed to set `connected = True` and enter monitoring; any failure
sets `connected = False`, sleeps 1 s and retries (`continue`).  In
`monitoring`, a successful liveness read sleeps 1 s and keeps monitoring; a
failing read exits to `closing`.  In `closing`, `disconnect()` is attempted
and — via the `finally` block, regardless of whether it succeeded —
`connected` is set to `False` and the loop returns to `connecting`. -/
def lifecycle_step (s : SessionState) (e : LoopEvent) : SessionState × Nat :=
  match s.phase with
  | .connecting =>
    if e.connect_ok && e.load_types_ok && e.init_nodes_ok then
      ({ phase := .monitoring, connected := true }, 0)
    else
      ({ phase := .connecting, connected := false }, 1000)
  | .monitoring =>
    if e.monitor_ok then (s, 1000)
    else ({ s with phase := .closing }, 0)
  | .closing =>
    ({ phase := .connecting, connected := false }, 0)

/-- Iterated lifecycle steps under an event trace. -/
def lifecycle_run (s : SessionState) (evs : Nat → LoopEvent) : Nat → SessionState
  | 0 => s
  | n + 1 => (lifecycle_step (lifecycle_run s evs n) (evs n)).1

/-! ## Helper lemmas -/

/-- The loop of `get_items_from_circular_buffer` succeeds and returns one
item per iteration, in iteration order, whenever every computed buffer
index is a valid access. -/
lemma get_items_go_ok (buffer : List α) (f s e : Int) :
    ∀ (n q : Nat),
      (∀ j, j < n →
        (pyListGet buffer (circular_buffer_index f s e (q + j))).isSome) →
      ∃ l, get_items_go buffer f s e q n = .ok l ∧ l.length = n ∧
        ∀ j, j < n →
          l[j]? = pyListGet buffer (circular_buffer_index f s e (q + j)) := by
  intro n
  induction n with
  | zero =>
    intro q _
    exact ⟨[], rfl, rfl, fun j hj => absurd hj (Nat.not_lt_zero j)⟩
  | succ n ih =>
    intro q hvalid
    have h0 : (pyListGet buffer (circular_buffer_index f s e (q + 0))).isSome :=
      hvalid 0 (Nat.succ_pos n)
    rw [Nat.add_zero] at h0
    obtain ⟨item, hitem⟩ := Option.isSome_iff_exists.mp h0
    obtain ⟨rest, hrest, hlen, hget⟩ := ih (q + 1) (fun j hj => by
      have := hvalid (j + 1) (Nat.succ_lt_succ hj)
      rwa [show q + (j + 1) = q + 1 + j by omega] at this)
    refine ⟨item :: rest, ?_, by simp [hlen], ?_⟩
    · simp only [get_items_go, hitem, hrest]
    · intro j hj
      cases j with
      | zero => simpa using hitem.symm
      | succ j =>
        have := hget j (Nat.lt_of_succ_lt_succ hj)
        simpa [show q + (j + 1) = q + 1 + j by omega] using this

/-- For a valid ring-buffer view, every computed buffer index stays within
`[index_of_buffer_start, index_of_buffer_end]`. -/
lemma circular_buffer_index_range (f s e len : Int) (q : Nat)
    (hsf : s ≤ f) (hfe : f ≤ e) (hcap : len ≤ e - s + 1)
    (hq : (q : Int) < len) :
    s ≤ circular_buffer_index f s e q ∧ circular_buffer_index f s e q ≤ e := by
  unfold circular_buffer_index
  dsimp only
  split <;> omega

/-- For a valid ring-buffer view, distinct queue positions map to distinct
physical buffer indices. -/
lemma circular_buffer_index_injective (f s e len : Int) (q1 q2 : Nat)
    (hsf : s ≤ f) (hfe : f ≤ e) (hcap : len ≤ e - s + 1)
    (h1 : (q1 : Int) < len) (h2 : (q2 : Int) < len)
    (heq : circular_buffer_index f s e q1 = circular_buffer_index f s e q2) :
    q1 = q2 := by
  unfold circular_buffer_index at heq
  dsimp only at heq
  split at heq <;> split at heq <;> omega

/-- A non-negatively indexed Python list access is a front access. -/
lemma pyListGet_nonneg (xs : List α) (i : Int) (h : 0 ≤ i) :
    pyListGet xs i = xs[i.toNat]? := by
  simp [pyListGet, h]

/-- Once `byte_index` exceeds 5 the decoding loop breaks immediately. -/
lemma dtdict_go_stop (l : List Nat) (i : Nat) (h : 5 < i) :
    dtdict_go l i = [] := by
  cases l with
  | nil => rfl
  | cons b rest => simp [dtdict_go, h]

/-- Value of the decoder on any input with at least six bytes. -/
lemma get_datetime_dict_six (b0 b1 b2 b3 b4 b5 : Nat) (rest : List Nat) :
    get_datetime_dict_from_byte_array
        (b0 :: b1 :: b2 :: b3 :: b4 :: b5 :: rest) =
      [("year", 10 * (b0 >>> 4) + (b0 &&& 0xF) + 2000),
       ("month", 10 * (b1 >>> 4) + (b1 &&& 0xF)),
       ("day", 10 * (b2 >>> 4) + (b2 &&& 0xF)),
       ("hours", 10 * (b3 >>> 4) + (b3 &&& 0xF)),
       ("minutes", 10 * (b4 >>> 4) + (b4 &&& 0xF)),
       ("seconds", 10 * (b5 >>> 4) + (b5 &&& 0xF))] := by
  simp [get_datetime_dict_from_byte_array, dtdict_go, dtdict_go_stop,
    VALUE_NAMES]

/-- Any sequence of at least six bytes starts with six explicit bytes. -/
lemma exists_six_bytes (l : List Nat) (h : 6 ≤ l.length) :
    ∃ b0 b1 b2 b3 b4 b5 rest,
      l = b0 :: b1 :: b2 :: b3 :: b4 :: b5 :: rest := by
  match l with
  | b0 :: b1 :: b2 :: b3 :: b4 :: b5 :: rest =>
    exact ⟨b0, b1, b2, b3, b4, b5, rest, rfl⟩
  | [] | [_] | [_, _] | [_, _, _] | [_, _, _, _] | [_, _, _, _, _] =>
    simp at h

/-- Decoding then rendering succeeds on any input of at least six bytes. -/
lemma datetime_string_of_dict_six (b0 b1 b2 b3 b4 b5 : Nat)
    (rest : List Nat) :
    datetime_string_of_dict (get_datetime_dict_from_byte_array
        (b0 :: b1 :: b2 :: b3 :: b4 :: b5 :: rest)) =
      .ok (get_datetime_string (10 * (b0 >>> 4) + (b0 &&& 0xF) + 2000)
        (10 * (b1 >>> 4) + (b1 &&& 0xF)) (10 * (b2 >>> 4) + (b2 &&& 0xF))
        (10 * (b3 >>> 4) + (b3 &&& 0xF)) (10 * (b4 >>> 4) + (b4 &&& 0xF))
        (10 * (b5 >>> 4) + (b5 &&& 0xF))) := by
  rw [get_datetime_dict_six]
  rfl

/-- Python indexing past the end of a list raises IndexError. -/
lemma pyListGet_ge_len (xs : List α) (i : Int) (h0 : 0 ≤ i)
    (h : (xs.length : Int) ≤ i) : pyListGet xs i = none := by
  simp only [pyListGet, if_pos h0]
  apply List.getElem?_eq_none
  omega

/-- Python indexing of a 2-element list at `-1` yields the second element. -/
lemma pyListGet_pair_neg_one (x y : α) : pyListGet [x, y] (-1) = some y := rfl

/-- Python indexing of a 2-element list at `1` yields the second element. -/
lemma pyListGet_pair_one (x y : α) : pyListGet [x, y] 1 = some y := rfl

/-- Python indexing of a 2-element list at `-2` yields the first element. -/
lemma pyListGet_pair_neg_two (x y : α) : pyListGet [x, y] (-2) = some x := rfl

/-- Python indexing of a 2-element list at `0` yields the first element. -/
lemma pyListGet_pair_zero (x y : α) : pyListGet [x, y] 0 = some x := rfl

/-- A field padded to width `w` has length exactly `w` whenever its decimal
rendering fits in `w` characters. -/
lemma pyFormatPad_length (w n : Nat) (h : (Nat.repr n).length ≤ w) :
    (pyFormatPad w n).length = w := by
  simp only [pyFormatPad, String.length_append]
  have : (String.mk (List.replicate (w - (Nat.repr n).length) '0')).length =
      w - (Nat.repr n).length := by
    show (List.replicate (w - (Nat.repr n).length) '0').length = _
    simp
  omega

/-- Lemma: `get_new_order_status` performs only node reads, never writes. -/
lemma get_new_order_status_no_writes (env : OpcEnv) :
    (get_new_order_status env).2.filter NodeAccess.isWrite = [] := by
  by_cases hc : env.connected = false
  · simp [get_new_order_status, hc]
  · cases hop : env.order_pushed_successfully <;>
      cases hsn : env.success_order_number <;>
      simp [get_new_order_status, hc, hop, hsn, NodeAccess.isWrite]

/-- The polling loop performs only node reads, never writes. -/
lemma push_poll_loop_no_writes (env : OpcEnv) :
    ∀ (m elapsed_ms k : Nat), 5000 - elapsed_ms ≤ m →
      (push_poll_loop env elapsed_ms k).2.filter NodeAccess.isWrite = [] := by
  intro m
  induction m with
  | zero =>
    intro elapsed_ms k hm
    rw [push_poll_loop.eq_def, dif_neg (by omega)]
    rfl
  | succ m ih =>
    intro elapsed_ms k hm
    rw [push_poll_loop.eq_def]
    by_cases hlt : elapsed_ms < 5000
    · rw [dif_pos hlt]
      cases hp : env.poll_trigger k with
      | error e => simp [NodeAccess.isWrite]
      | ok v =>
        by_cases hv : v = false
        · simp only [hv, if_pos rfl]
          simp [NodeAccess.isWrite, get_new_order_status_no_writes]
        · simp only [if_neg hv]
          simp [NodeAccess.isWrite, ih (elapsed_ms + 500) (k + 1) (by omega)]
    · rw [dif_neg hlt]
      rfl

/-- If every poll inside the 5-second window reads the trigger as still
set, the polling loop times out having performed exactly the remaining
`10 - j` trigger reads and nothing else. -/
lemma push_poll_loop_all_true (env : OpcEnv) :
    ∀ (m j : Nat), j + m = 10 →
      (∀ k, j ≤ k → k < 10 → env.poll_trigger k = .ok true) →
      push_poll_loop env (500 * j) j =
        (.ok (.TIMEOUT, none),
         List.replicate (10 - j) (.readN "pushNewOrderToQueue")) := by
  intro m
  induction m with
  | zero =>
    intro j hj _
    have h10 : j = 10 := by omega
    subst h10
    rw [push_poll_loop.eq_def, dif_neg (by omega)]
    rfl
  | succ m ih =>
    intro j hj hpoll
    have hj10 : j < 10 := by omega
    rw [push_poll_loop.eq_def, dif_pos (by omega : 500 * j < 5000),
      hpoll j (Nat.le_refl j) hj10]
    have hrec : 500 * j + 500 = 500 * (j + 1) := by ring
    rw [hrec, ih (j + 1) (by omega)
      (fun k hk1 hk2 => hpoll k (by omega) hk2)]
    have : 10 - j = (10 - (j + 1)) + 1 := by omega
    rw [this, List.replicate_succ]
    simp

/-- If the first cleared (`False`) trigger reading is the `k`-th poll
(`k < 10`), the polling loop performs `k + 1` trigger reads and then
delegates to `get_new_order_status`. -/
lemma push_poll_loop_first_false (env : OpcEnv) :
    ∀ (m j k : Nat), j + m = 10 → j ≤ k → k < 10 →
      (∀ i, j ≤ i → i < k → env.poll_trigger i = .ok true) →
      env.poll_trigger k = .ok false →
      push_poll_loop env (500 * j) j =
        ((get_new_order_status env).1,
         List.replicate (k - j + 1) (.readN "pushNewOrderToQueue") ++
           (get_new_order_status env).2) := by
  intro m
  induction m with
  | zero =>
    intro j k hj hjk hk10 _ _
    omega
  | succ m ih =>
    intro j k hj hjk hk10 hbefore hfalse
    rw [push_poll_loop.eq_def, dif_pos (by omega : 500 * j < 5000)]
    by_cases hjeq : j = k
    · subst hjeq
      rw [hfalse]
      simp
    · have hlt : j < k := by omega
      rw [hbefore j (Nat.le_refl j) hlt]
      have hrec : 500 * j + 500 = 500 * (j + 1) := by ring
      rw [hrec, ih (j + 1) k (by omega) (by omega) hk10
        (fun i hi1 hi2 => hbefore i (by omega) hi2) hfalse]
      have heq : k - j + 1 = (k - (j + 1) + 1) + 1 := by omega
      simp [heq, List.replicate_succ]

/-! ## Claims -/

/-- C1: for every valid `RingBufferView` (`bufferStartIndex ≤ readIndex ≤
bufferEndIndex`, `0 ≤ length ≤ bufferEndIndex - bufferStartIndex + 1`,
buffer physically indexable up to `bufferEndIndex`), the circular buffer
extractor returns exactly `length` items, the item at queue position `q`
being the buffer entry at the physical index `circular_buffer_index`
(readIndex + q, wrapped via `(bufferIndex - bufferEndIndex - 1) +
bufferStartIndex` when it exceeds `bufferEndIndex`), with no physical index
repeated; in particular for `bufferStartIndex = 0`, `bufferEndIndex = 7`,
`readIndex = 6`, `length = 4` the physical indices are `[6, 7, 0, 1]`. -/
theorem circular_buffer_extractor_spec :
    (∀ (α : Type) (buffer : List α)
       (index_of_first_item queue_length index_of_buffer_start
         index_of_buffer_end : Int),
       0 ≤ index_of_buffer_start →
       index_of_buffer_start ≤ index_of_first_item →
       index_of_first_item ≤ index_of_buffer_end →
       0 ≤ queue_length →
       queue_length ≤ index_of_buffer_end - index_of_buffer_start + 1 →
       index_of_buffer_end < (buffer.length : Int) →
       ∃ l, get_items_from_circular_buffer buffer index_of_first_item
           queue_length index_of_buffer_start index_of_buffer_end = .ok l ∧
         l.length = queue_length.toNat ∧
         (∀ q, q < queue_length.toNat →
           l[q]? = buffer[(circular_buffer_index index_of_first_item
             index_of_buffer_start index_of_buffer_end q).toNat]?) ∧
         (∀ q1 q2, q1 < queue_length.toNat → q2 < queue_length.toNat →
           circular_buffer_index index_of_first_item index_of_buffer_start
               index_of_buffer_end q1 =
             circular_buffer_index index_of_first_item index_of_buffer_start
               index_of_buffer_end q2 →
           q1 = q2)) ∧
    (List.range 4).map
        (fun q => circular_buffer_index 6 0 7 q) = [6, 7, 0, 1] ∧
    get_items_from_circular_buffer ((List.range 8).map Int.ofNat) 6 4 0 7 =
      .ok [6, 7, 0, 1] := by
  refine ⟨?_, by rfl, by rfl⟩
  intro α buffer f len s e hs0 hsf hfe hlen0 hcap hbuf
  have hsome : ∀ j, j < len.toNat →
      (pyListGet buffer (circular_buffer_index f s e (0 + j))).isSome := by
    intro j hj
    have hj' : (j : Int) < len := by omega
    obtain ⟨hlo, hhi⟩ :=
      circular_buffer_index_range f s e len j hsf hfe hcap hj'
    have h0 : 0 ≤ circular_buffer_index f s e j := le_trans hs0 hlo
    have hidx : (circular_buffer_index f s e j).toNat < buffer.length := by
      omega
    simp only [Nat.zero_add, pyListGet_nonneg buffer _ h0]
    simp [List.getElem?_eq_getElem hidx]
  obtain ⟨l, hok, hlen, hget⟩ :=
    get_items_go_ok buffer f s e len.toNat 0 hsome
  refine ⟨l, hok, hlen, ?_, ?_⟩
  · intro q hq
    have hq' : (q : Int) < len := by omega
    obtain ⟨hlo, _⟩ :=
      circular_buffer_index_range f s e len q hsf hfe hcap hq'
    have h0 : 0 ≤ circular_buffer_index f s e q := le_trans hs0 hlo
    have := hget q hq
    simpa only [Nat.zero_add, pyListGet_nonneg buffer _ h0] using this
  · intro q1 q2 hq1 hq2 heq
    exact circular_buffer_index_injective f s e len q1 q2 hsf hfe hcap
      (by omega) (by omega) heq

/-- Witness for C1 at the concrete configuration of the spec: buffer
`[0,…,7]`, `readIndex = 6`, `length = 4`, bounds `0`/`7`. -/
theorem circular_buffer_extractor_spec_witness :
    ∃ l, get_items_from_circular_buffer ((List.range 8).map Int.ofNat)
        6 4 0 7 = .ok l ∧
      l.length = (4 : Int).toNat ∧
      (∀ q, q < (4 : Int).toNat →
        l[q]? = ((List.range 8).map Int.ofNat)[(circular_buffer_index
          6 0 7 q).toNat]?) ∧
      (∀ q1 q2, q1 < (4 : Int).toNat → q2 < (4 : Int).toNat →
        circular_buffer_index 6 0 7 q1 = circular_buffer_index 6 0 7 q2 →
        q1 = q2) :=
  circular_buffer_extractor_spec.1 Int ((List.range 8).map Int.ofNat)
    6 4 0 7 (by omega) (by omega) (by omega) (by omega) (by omega)
    (by simp)

/-- C2: for every byte sequence of at least 6 bytes, the BCD decoder maps
byte `i ∈ [0,5]` to `10*(byte >> 4) + (byte & 0xF)`, adds 2000 to position
0 (year), maps positions 1–5 to month, day, hours, minutes, seconds, and
ignores bytes beyond index 5; the string rendering is zero-padded
fixed-width `YYYY-MM-DD-hh-mm-ss` (length 19 for in-range fields); in
particular `[0x22, 0x05, 0x12, 0x0F, 0x0A, 0x00]` decodes to
2022-05-12 15:10:00 and renders as `"2022-05-12-15-10-00"`. -/
theorem bcd_decoder_spec :
    (∀ (b0 b1 b2 b3 b4 b5 : Nat) (rest : List Nat),
      get_datetime_dict_from_byte_array
          (b0 :: b1 :: b2 :: b3 :: b4 :: b5 :: rest) =
        [("year", 10 * (b0 >>> 4) + (b0 &&& 0xF) + 2000),
         ("month", 10 * (b1 >>> 4) + (b1 &&& 0xF)),
         ("day", 10 * (b2 >>> 4) + (b2 &&& 0xF)),
         ("hours", 10 * (b3 >>> 4) + (b3 &&& 0xF)),
         ("minutes", 10 * (b4 >>> 4) + (b4 &&& 0xF)),
         ("seconds", 10 * (b5 >>> 4) + (b5 &&& 0xF))]) ∧
    (∀ year month day hours minutes seconds : Nat,
      year < 10000 → month < 100 → day < 100 → hours < 100 →
      minutes < 100 → seconds < 100 →
      (get_datetime_string year month day hours minutes seconds).length
        = 19) ∧
    get_datetime_dict_from_byte_array [0x22, 0x05, 0x12, 0x0F, 0x0A, 0x00] =
      [("year", 2022), ("month", 5), ("day", 12), ("hours", 15),
       ("minutes", 10), ("seconds", 0)] ∧
    get_datetime_string 2022 5 12 15 10 0 = "2022-05-12-15-10-00" := by
  refine ⟨?_, ?_, by rfl, by rfl⟩
  · exact get_datetime_dict_six
  · intro year month day hours minutes seconds hy hmo hd hh hmi hs
    have p4 : (Nat.repr year).length ≤ 4 :=
      Nat.repr_length year 4 (by omega) (by omega)
    have pm : (Nat.repr month).length ≤ 2 :=
      Nat.repr_length month 2 (by omega) (by omega)
    have pd : (Nat.repr day).length ≤ 2 :=
      Nat.repr_length day 2 (by omega) (by omega)
    have ph : (Nat.repr hours).length ≤ 2 :=
      Nat.repr_length hours 2 (by omega) (by omega)
    have pmi : (Nat.repr minutes).length ≤ 2 :=
      Nat.repr_length minutes 2 (by omega) (by omega)
    have ps : (Nat.repr seconds).length ≤ 2 :=
      Nat.repr_length seconds 2 (by omega) (by omega)
    have hdash : ("-" : String).length = 1 := rfl
    simp only [get_datetime_string, String.length_append,
      pyFormatPad_length _ _ p4, pyFormatPad_length _ _ pm,
      pyFormatPad_length _ _ pd, pyFormatPad_length _ _ ph,
      pyFormatPad_length _ _ pmi, pyFormatPad_length _ _ ps, hdash]

/-- Witness for C2 at the concrete input of the spec: the decode equation at
bytes `[0x22, 0x05, 0x12, 0x0F, 0x0A, 0x00]` and the fixed-width rendering
at 2022-05-12 15:10:00. -/
theorem bcd_decoder_spec_witness :
    get_datetime_dict_from_byte_array [0x22, 0x05, 0x12, 0x0F, 0x0A, 0x00] =
      [("year", 10 * (0x22 >>> 4) + (0x22 &&& 0xF) + 2000),
       ("month", 10 * (0x05 >>> 4) + (0x05 &&& 0xF)),
       ("day", 10 * (0x12 >>> 4) + (0x12 &&& 0xF)),
       ("hours", 10 * (0x0F >>> 4) + (0x0F &&& 0xF)),
       ("minutes", 10 * (0x0A >>> 4) + (0x0A &&& 0xF)),
       ("seconds", 10 * (0x00 >>> 4) + (0x00 &&& 0xF))] ∧
    (get_datetime_string 2022 5 12 15 10 0).length = 19 :=
  ⟨bcd_decoder_spec.1 0x22 0x05 0x12 0x0F 0x0A 0x00 [],
   bcd_decoder_spec.2.1 2022 5 12 15 10 0 (by decide) (by decide)
     (by decide) (by decide) (by decide) (by decide)⟩

/-- C3 counterexample: on the 1-byte input `[0x22]` the decoder does not
fail with any `MalformedTimestamp` error — it returns the partial dict
`{year: 2022}`. -/
theorem bcd_short_input_cex :
    get_datetime_dict_from_byte_array [0x22] = [("year", 2022)] := by rfl

/-- C3 (amended): for every input of fewer than 6 bytes the decoder does
not fail; it returns a partial dict with exactly one entry per supplied
byte, keyed by the first `length` names of `VALUE_NAMES` in order. -/
theorem bcd_short_partial_dict :
    ∀ l : List Nat, l.length < 6 →
      (get_datetime_dict_from_byte_array l).length = l.length ∧
      (get_datetime_dict_from_byte_array l).map Prod.fst =
        VALUE_NAMES.take l.length := by
  intro l hl
  match l, hl with
  | [], _ => exact ⟨rfl, rfl⟩
  | [b0], _ => exact ⟨rfl, rfl⟩
  | [b0, b1], _ => exact ⟨rfl, rfl⟩
  | [b0, b1, b2], _ => exact ⟨rfl, rfl⟩
  | [b0, b1, b2, b3], _ => exact ⟨rfl, rfl⟩
  | [b0, b1, b2, b3, b4], _ => exact ⟨rfl, rfl⟩

/-- Witness for the amended C3 at the concrete 1-byte input `[0x22]`. -/
theorem bcd_short_partial_dict_witness :
    (get_datetime_dict_from_byte_array [0x22]).length = [0x22].length ∧
    (get_datetime_dict_from_byte_array [0x22]).map Prod.fst =
      VALUE_NAMES.take [0x22].length :=
  bcd_short_partial_dict [0x22] (by decide)

/-- A concrete healthy environment used to instantiate theorems: connected,
every node read/write succeeds. -/
def envOk : OpcEnv where
  connected := true
  queue_items := .ok []
  queue_start_index := .ok 0
  queue_end_index := .ok 7
  current_queue_length := .ok 0
  queue_read_index := .ok 0
  drink_types := .ok []
  pickup_drinks := .ok []
  prep_drink := fun i => .ok ⟨(i.val : Int), 5, 0, false⟩
  prep_startAt := fun _ => .ok [0x22, 0x05, 0x12, 0x0F, 0x0A, 0x00]
  prep_doneAt := fun _ => .ok [0x22, 0x05, 0x12, 0x0F, 0x0A, 0x01]
  plc_time := .ok [0x22, 0x05, 0x12, 0x0F, 0x0A, 0x00]
  order_pushed_successfully := .ok true
  success_order_number := .ok 42
  write_use_ice := .ok ()
  write_drink_size := .ok ()
  write_drink_type_id := .ok ()
  write_trigger := .ok ()
  poll_trigger := fun _ => .ok true

/-- The same environment with the session flag `connected` cleared. -/
def envDown : OpcEnv := { envOk with connected := false }

/-- C4: while `connected == false`, every domain read accessor (drink
types, queue, pickup slots, drink-in-progress for any side, PLC clock)
returns `(NO_CONNECTION, None)` — whose code is `-3` — with an empty node
access log (no node read attempted). -/
theorem no_connection_guard :
    (∀ env : OpcEnv, env.connected = false →
      get_drink_types_json env = (.ok (.NO_CONNECTION, none), []) ∧
      get_queue_drinks_json env = (.ok (.NO_CONNECTION, none), []) ∧
      get_pickup_drinks_json env = (.ok (.NO_CONNECTION, none), []) ∧
      (∀ side : Int,
        get_prep_drink_json env side = (.ok (.NO_CONNECTION, none), [])) ∧
      get_current_plc_time env = (.ok (.NO_CONNECTION, none), [])) ∧
    ReturnCodes.value .NO_CONNECTION = -3 := by
  refine ⟨?_, rfl⟩
  intro env h
  refine ⟨?_, ?_, ?_, fun side => ?_, ?_⟩ <;>
    simp [get_drink_types_json, get_queue_drinks_json,
      get_pickup_drinks_json, get_prep_drink_json, get_current_plc_time, h]

/-- Witness for C4 on the concrete disconnected environment. -/
theorem no_connection_guard_witness :
    get_drink_types_json envDown = (.ok (.NO_CONNECTION, none), []) ∧
    get_queue_drinks_json envDown = (.ok (.NO_CONNECTION, none), []) ∧
    get_pickup_drinks_json envDown = (.ok (.NO_CONNECTION, none), []) ∧
    get_prep_drink_json envDown 0 = (.ok (.NO_CONNECTION, none), []) ∧
    get_current_plc_time envDown = (.ok (.NO_CONNECTION, none), []) :=
  ⟨(no_connection_guard.1 envDown rfl).1,
   (no_connection_guard.1 envDown rfl).2.1,
   (no_connection_guard.1 envDown rfl).2.2.1,
   (no_connection_guard.1 envDown rfl).2.2.2.1 0,
   (no_connection_guard.1 envDown rfl).2.2.2.2⟩

/-- C8: when connected and the pickup-slot array reads successfully, the
pickup-drinks result contains exactly the slots with `orderId ≠ 0` and
`pickedUp = false`, keyed by their physical array index; a slot with
`orderId = 0` is never included regardless of its `pickedUp` flag. -/
theorem pickup_filter_spec :
    ∀ (env : OpcEnv) (slots : List DrinkRec),
      env.connected = true → env.pickup_drinks = .ok slots →
      ∃ entries, get_pickup_drinks_json env =
          (.ok (.OK, some entries), [.readN "pickUpDrinks"]) ∧
        (∀ (i : Nat) (e : DrinkJson), (i, e) ∈ entries ↔
          ∃ d, slots[i]? = some d ∧ d.orderId ≠ 0 ∧ d.pickedUp = false ∧
            e = ⟨d.orderId, d.drinkTypeId, d.prepStartAt⟩) ∧
        (∀ (i : Nat) (d : DrinkRec), slots[i]? = some d → d.orderId = 0 →
          ∀ e, (i, e) ∉ entries) := by
  intro env slots hc hp
  set entries := slots.enum.filterMap (fun p =>
    if p.2.orderId ≠ 0 ∧ p.2.pickedUp = false then
      some (p.1, ({ drinkOrderId := p.2.orderId, drinkTypeId := p.2.drinkTypeId,
                    prepStartedAt := p.2.prepStartAt } : DrinkJson))
    else none) with hentries
  have hiff : ∀ (i : Nat) (e : DrinkJson), (i, e) ∈ entries ↔
      ∃ d, slots[i]? = some d ∧ d.orderId ≠ 0 ∧ d.pickedUp = false ∧
        e = ⟨d.orderId, d.drinkTypeId, d.prepStartAt⟩ := by
    intro i e
    constructor
    · intro hmem
      obtain ⟨⟨j, d⟩, hjd, hf⟩ :=
        List.mem_filterMap.mp (hentries ▸ hmem)
      by_cases hcond : d.orderId ≠ 0 ∧ d.pickedUp = false
      · rw [if_pos hcond] at hf
        obtain ⟨hj, he⟩ := Prod.mk.injEq _ _ _ _ |>.mp (Option.some.inj hf)
        refine ⟨d, ?_, hcond.1, hcond.2, he.symm⟩
        rw [← hj]
        exact List.mk_mem_enum_iff_getElem?.mp hjd
      · rw [if_neg hcond] at hf
        exact absurd hf (by simp)
    · rintro ⟨d, hget, h1, h2, he⟩
      rw [hentries]
      refine List.mem_filterMap.mpr ⟨(i, d),
        List.mk_mem_enum_iff_getElem?.mpr hget, ?_⟩
      simp only [if_pos (And.intro h1 h2)]
      rw [he]
  refine ⟨entries, ?_, hiff, ?_⟩
  · simp [get_pickup_drinks_json, hc, hp, hentries]
  · intro i d hget h0 e hmem
    obtain ⟨d', hd', hne, _, _⟩ := (hiff i e).mp hmem
    rw [hget] at hd'
    exact hne (by rw [← Option.some.inj hd']; exact h0)

/-- Concrete pickup-slot array: an empty slot (`orderId = 0`), an active
slot, and an already picked-up slot. -/
def pickupSlots : List DrinkRec :=
  [{ orderId := 0, drinkTypeId := 9, prepStartAt := 9, pickedUp := false },
   { orderId := 7, drinkTypeId := 1, prepStartAt := 2, pickedUp := false },
   { orderId := 8, drinkTypeId := 1, prepStartAt := 2, pickedUp := true }]

/-- Concrete connected environment whose pickup node returns
`pickupSlots`. -/
def envPickup : OpcEnv := { envOk with pickup_drinks := .ok pickupSlots }

/-- Witness for C8 on the concrete pickup-slot array. -/
theorem pickup_filter_spec_witness :
    ∃ entries, get_pickup_drinks_json envPickup =
        (.ok (.OK, some entries), [.readN "pickUpDrinks"]) ∧
      (∀ (i : Nat) (e : DrinkJson), (i, e) ∈ entries ↔
        ∃ d, pickupSlots[i]? = some d ∧ d.orderId ≠ 0 ∧
          d.pickedUp = false ∧
          e = ⟨d.orderId, d.drinkTypeId, d.prepStartAt⟩) ∧
      (∀ (i : Nat) (d : DrinkRec), pickupSlots[i]? = some d →
        d.orderId = 0 → ∀ e, (i, e) ∉ entries) :=
  pickup_filter_spec envPickup pickupSlots (by rfl) (by rfl)

/-- C10: `get_prep_drink_json` never fails with `InvalidArgument` for an
out-of-range side: when connected, for every `side ≥ 2` the out-of-range
list indexing raises inside the `try` and the call returns `(NOK, None)`
(`NOK` has code `-1`) with no node read; for `side = -1` and `side = -2`
the call behaves exactly as for side `1` (right) and side `0` (left)
respectively, and in particular succeeds when the reads of the right side
succeed with well-formed timestamps. -/
theorem prep_drink_side_spec :
    (∀ (env : OpcEnv) (side : Int), env.connected = true → 2 ≤ side →
      get_prep_drink_json env side = (.ok (.NOK, none), [])) ∧
    (∀ env : OpcEnv, env.connected = true →
      get_prep_drink_json env (-1) = get_prep_drink_json env 1) ∧
    (∀ env : OpcEnv, env.connected = true →
      get_prep_drink_json env (-2) = get_prep_drink_json env 0) ∧
    (∀ (env : OpcEnv) (d : DrinkRec) (sa da : List Nat),
      env.connected = true → env.prep_drink 1 = .ok d →
      env.prep_startAt 1 = .ok sa → env.prep_doneAt 1 = .ok da →
      6 ≤ sa.length → 6 ≤ da.length →
      ∃ s1 s2, get_prep_drink_json env (-1) =
        (.ok (.OK, some ⟨d.orderId, d.drinkTypeId, s1, s2⟩),
         [.readN "prepDrink", .readN "prepDrink.prepStartAt",
          .readN "prepDrink.prepDoneAt"])) ∧
    ReturnCodes.value .NOK = -1 := by
  refine ⟨?_, ?_, ?_, ?_, rfl⟩
  · intro env side hc hs
    have e1 : pyListGet [env.prep_drink 0, env.prep_drink 1] side = none :=
      pyListGet_ge_len _ _ (by omega) (by simp; omega)
    simp [get_prep_drink_json, hc, e1]
  · intro env hc
    simp only [get_prep_drink_json, pyListGet_pair_neg_one,
      pyListGet_pair_one]
  · intro env hc
    simp only [get_prep_drink_json, pyListGet_pair_neg_two,
      pyListGet_pair_zero]
  · intro env d sa da hc hd hsa hda hsal hdal
    obtain ⟨a0, a1, a2, a3, a4, a5, arest, rfl⟩ := exists_six_bytes sa hsal
    obtain ⟨c0, c1, c2, c3, c4, c5, crest, rfl⟩ := exists_six_bytes da hdal
    refine ⟨get_datetime_string (10 * (a0 >>> 4) + (a0 &&& 0xF) + 2000)
        (10 * (a1 >>> 4) + (a1 &&& 0xF)) (10 * (a2 >>> 4) + (a2 &&& 0xF))
        (10 * (a3 >>> 4) + (a3 &&& 0xF)) (10 * (a4 >>> 4) + (a4 &&& 0xF))
        (10 * (a5 >>> 4) + (a5 &&& 0xF)),
      get_datetime_string (10 * (c0 >>> 4) + (c0 &&& 0xF) + 2000)
        (10 * (c1 >>> 4) + (c1 &&& 0xF)) (10 * (c2 >>> 4) + (c2 &&& 0xF))
        (10 * (c3 >>> 4) + (c3 &&& 0xF)) (10 * (c4 >>> 4) + (c4 &&& 0xF))
        (10 * (c5 >>> 4) + (c5 &&& 0xF)), ?_⟩
    simp [get_prep_drink_json, hc, pyListGet_pair_neg_one, hd, hsa, hda,
      datetime_string_of_dict_six]

/-- Witness for C10 on the concrete healthy environment (`side = 2` out of
range; `side = -1`/`-2` aliasing sides `1`/`0`; success at `side = -1`). -/
theorem prep_drink_side_spec_witness :
    get_prep_drink_json envOk 2 = (.ok (.NOK, none), []) ∧
    get_prep_drink_json envOk (-1) = get_prep_drink_json envOk 1 ∧
    get_prep_drink_json envOk (-2) = get_prep_drink_json envOk 0 ∧
    (∃ s1 s2, get_prep_drink_json envOk (-1) =
      (.ok (.OK, some ⟨(1 : Int), 5, s1, s2⟩),
       [.readN "prepDrink", .readN "prepDrink.prepStartAt",
        .readN "prepDrink.prepDoneAt"])) :=
  ⟨prep_drink_side_spec.1 envOk 2 rfl (by omega),
   prep_drink_side_spec.2.1 envOk rfl,
   prep_drink_side_spec.2.2.1 envOk rfl,
   prep_drink_side_spec.2.2.2.1 envOk ⟨1, 5, 0, false⟩
     [0x22, 0x05, 0x12, 0x0F, 0x0A, 0x00] [0x22, 0x05, 0x12, 0x0F, 0x0A, 0x01]
     rfl rfl rfl rfl (by decide) (by decide)⟩

/-- C9: the lifecycle loop never exits: a failed connect attempt (any of
the three setup calls failing) leaves the loop in `connecting` with
`connected = false` after a fixed 1000 ms backoff, and it keeps retrying
indefinitely (after any number of steps under always-failing connects the
state is still the initial `connecting` state); after a monitoring read
failure the loop passes through `closing` and — regardless of whether the
graceful disconnect succeeds — reaches `connecting` with
`connected = false`; and, starting from a disconnected state, `connected`
becomes true precisely when the loop is connecting and the transport
connect, type-metadata load and node-handle resolution all succeed. -/
theorem lifecycle_spec :
    (∀ (s : SessionState) (e : LoopEvent), s.phase = .connecting →
      ¬(e.connect_ok = true ∧ e.load_types_ok = true ∧
        e.init_nodes_ok = true) →
      lifecycle_step s e = (⟨.connecting, false⟩, 1000)) ∧
    (∀ (evs : Nat → LoopEvent) (n : Nat),
      (∀ k, ¬((evs k).connect_ok = true ∧ (evs k).load_types_ok = true ∧
        (evs k).init_nodes_ok = true)) →
      lifecycle_run initialSessionState evs n = initialSessionState) ∧
    (∀ (s : SessionState) (e e' : LoopEvent), s.phase = .monitoring →
      e.monitor_ok = false →
      (lifecycle_step (lifecycle_step s e).1 e').1 =
        ⟨.connecting, false⟩) ∧
    (∀ (s : SessionState) (e : LoopEvent), s.phase = .closing →
      (lifecycle_step s e).1 = ⟨.connecting, false⟩) ∧
    (∀ (s : SessionState) (e : LoopEvent), s.connected = false →
      ((lifecycle_step s e).1.connected = true ↔
        (s.phase = .connecting ∧ e.connect_ok = true ∧
          e.load_types_ok = true ∧ e.init_nodes_ok = true))) := by
  have hfailstep : ∀ (s : SessionState) (e : LoopEvent),
      s.phase = .connecting →
      ¬(e.connect_ok = true ∧ e.load_types_ok = true ∧
        e.init_nodes_ok = true) →
      lifecycle_step s e = (⟨.connecting, false⟩, 1000) := by
    intro s e hp hfail
    simp only [lifecycle_step, hp]
    split
    · next hcond =>
      rw [Bool.and_eq_true, Bool.and_eq_true] at hcond
      exact absurd ⟨hcond.1.1, hcond.1.2, hcond.2⟩ hfail
    · rfl
  refine ⟨hfailstep, ?_, ?_, ?_, ?_⟩
  · intro evs n hfail
    induction n with
    | zero => rfl
    | succ n ih =>
      show (lifecycle_step (lifecycle_run initialSessionState evs n)
        (evs n)).1 = initialSessionState
      rw [ih, hfailstep initialSessionState (evs n) rfl (hfail n)]
      rfl
  · intro s e e' hp hm
    simp only [lifecycle_step, hp, hm]
    rfl
  · intro s e hp
    simp only [lifecycle_step, hp]
  · intro s e hc
    cases hp : s.phase with
    | connecting =>
      simp only [lifecycle_step, hp]
      constructor
      · intro h
        split at h
        · next hcond =>
          rw [Bool.and_eq_true, Bool.and_eq_true] at hcond
          exact ⟨trivial, hcond.1.1, hcond.1.2, hcond.2⟩
        · simp at h
      · rintro ⟨-, h1, h2, h3⟩
        simp [h1, h2, h3]
    | monitoring =>
      simp only [lifecycle_step, hp]
      constructor
      · intro h
        split at h <;> simp [hc] at h
      · rintro ⟨habs, -⟩
        simp at habs
    | closing =>
      simp only [lifecycle_step, hp]
      constructor
      · intro h; simp at h
      · rintro ⟨habs, -⟩
        simp at habs

/-- Connect-phase event where the transport connect itself fails. -/
def evConnectFail : LoopEvent :=
  { connect_ok := false, load_types_ok := false, init_nodes_ok := false,
    monitor_ok := true, close_ok := true }

/-- Event where a monitoring read fails and the disconnect also fails. -/
def evMonitorAndCloseFail : LoopEvent :=
  { connect_ok := true, load_types_ok := true, init_nodes_ok := true,
    monitor_ok := false, close_ok := false }

/-- Event where everything succeeds. -/
def evAllOk : LoopEvent :=
  { connect_ok := true, load_types_ok := true, init_nodes_ok := true,
    monitor_ok := true, close_ok := true }

/-- Witness for C9: a failing connect backs off 1000 ms and stays
disconnected; three failing attempts still leave the initial state; a
monitoring failure followed by a failing disconnect still clears
`connected`; the closing step clears `connected` even when `close_ok` is
false; and from the initial state `connected` turns true under an all-ok
connect event. -/
theorem lifecycle_spec_witness :
    lifecycle_step initialSessionState evConnectFail =
      (⟨.connecting, false⟩, 1000) ∧
    lifecycle_run initialSessionState (fun _ => evConnectFail) 3 =
      initialSessionState ∧
    (lifecycle_step (lifecycle_step ⟨.monitoring, true⟩
      evMonitorAndCloseFail).1 evMonitorAndCloseFail).1 =
      ⟨.connecting, false⟩ ∧
    (lifecycle_step ⟨.closing, true⟩ evMonitorAndCloseFail).1 =
      ⟨.connecting, false⟩ ∧
    ((lifecycle_step initialSessionState evAllOk).1.connected = true ↔
      (initialSessionState.phase = .connecting ∧
        evAllOk.connect_ok = true ∧ evAllOk.load_types_ok = true ∧
        evAllOk.init_nodes_ok = true)) :=
  ⟨lifecycle_spec.1 initialSessionState evConnectFail rfl (by simp [evConnectFail]),
   lifecycle_spec.2.1 (fun _ => evConnectFail) 3 (fun _ => by simp [evConnectFail]),
   lifecycle_spec.2.2.1 ⟨.monitoring, true⟩ evMonitorAndCloseFail
     evMonitorAndCloseFail rfl rfl,
   lifecycle_spec.2.2.2.1 ⟨.closing, true⟩ evMonitorAndCloseFail rfl,
   lifecycle_spec.2.2.2.2 initialSessionState evAllOk rfl⟩

/-- C6: `push_new_drink` performs exactly four writes in the order
`newOrderUseIce` (bool), `newOrderDrinkSizeId` (int), `newOrderDrinkTypeId`
(int), then the `pushNewOrderToQueue` trigger set to `true`; if any write
fails the operation returns `(NOK, None)` (`NOK` = `-1`) with exactly the
failed prefix of writes attempted and no retry; when all four succeed they
are the first four node accesses and the only writes of the whole call. -/
theorem push_write_sequence_spec :
    (∀ (env : OpcEnv) (tid : Int) (ice : Bool) (size : Int) (e : String),
      env.write_use_ice = .error e →
      push_new_drink env tid ice size =
        (.ok (.NOK, none), [.writeB "newOrderUseIce" ice])) ∧
    (∀ (env : OpcEnv) (tid : Int) (ice : Bool) (size : Int) (e : String),
      env.write_use_ice = .ok () → env.write_drink_size = .error e →
      push_new_drink env tid ice size = (.ok (.NOK, none),
        [.writeB "newOrderUseIce" ice,
         .writeI "newOrderDrinkSizeId" size])) ∧
    (∀ (env : OpcEnv) (tid : Int) (ice : Bool) (size : Int) (e : String),
      env.write_use_ice = .ok () → env.write_drink_size = .ok () →
      env.write_drink_type_id = .error e →
      push_new_drink env tid ice size = (.ok (.NOK, none),
        [.writeB "newOrderUseIce" ice, .writeI "newOrderDrinkSizeId" size,
         .writeI "newOrderDrinkTypeId" tid])) ∧
    (∀ (env : OpcEnv) (tid : Int) (ice : Bool) (size : Int) (e : String),
      env.write_use_ice = .ok () → env.write_drink_size = .ok () →
      env.write_drink_type_id = .ok () → env.write_trigger = .error e →
      push_new_drink env tid ice size = (.ok (.NOK, none),
        [.writeB "newOrderUseIce" ice, .writeI "newOrderDrinkSizeId" size,
         .writeI "newOrderDrinkTypeId" tid,
         .writeB "pushNewOrderToQueue" true])) ∧
    (∀ (env : OpcEnv) (tid : Int) (ice : Bool) (size : Int),
      env.write_use_ice = .ok () → env.write_drink_size = .ok () →
      env.write_drink_type_id = .ok () → env.write_trigger = .ok () →
      (push_new_drink env tid ice size).2.take 4 =
        [.writeB "newOrderUseIce" ice, .writeI "newOrderDrinkSizeId" size,
         .writeI "newOrderDrinkTypeId" tid,
         .writeB "pushNewOrderToQueue" true] ∧
      (push_new_drink env tid ice size).2.filter NodeAccess.isWrite =
        [.writeB "newOrderUseIce" ice, .writeI "newOrderDrinkSizeId" size,
         .writeI "newOrderDrinkTypeId" tid,
         .writeB "pushNewOrderToQueue" true]) ∧
    ReturnCodes.value .NOK = -1 := by
  refine ⟨?_, ?_, ?_, ?_, ?_, rfl⟩
  · intro env tid ice size e h1
    simp [push_new_drink, h1]
  · intro env tid ice size e h1 h2
    simp [push_new_drink, h1, h2]
  · intro env tid ice size e h1 h2 h3
    simp [push_new_drink, h1, h2, h3]
  · intro env tid ice size e h1 h2 h3 h4
    simp [push_new_drink, h1, h2, h3, h4]
  · intro env tid ice size h1 h2 h3 h4
    constructor
    · simp [push_new_drink, h1, h2, h3, h4]
    · simp [push_new_drink, h1, h2, h3, h4, NodeAccess.isWrite,
        push_poll_loop_no_writes env 5000 0 0 (by omega)]

/-- Environments with exactly one failing write, for the C6 witness. -/
def envWriteFail1 : OpcEnv := { envOk with write_use_ice := .error "Fail" }

/-- Second write failing. -/
def envWriteFail2 : OpcEnv := { envOk with write_drink_size := .error "Fail" }

/-- Third write failing. -/
def envWriteFail3 : OpcEnv :=
  { envOk with write_drink_type_id := .error "Fail" }

/-- Fourth (trigger) write failing. -/
def envWriteFail4 : OpcEnv := { envOk with write_trigger := .error "Fail" }

/-- Witness for C6 on the concrete environments. -/
theorem push_write_sequence_spec_witness :
    push_new_drink envWriteFail1 3 true 2 =
      (.ok (.NOK, none), [.writeB "newOrderUseIce" true]) ∧
    push_new_drink envWriteFail2 3 true 2 = (.ok (.NOK, none),
      [.writeB "newOrderUseIce" true, .writeI "newOrderDrinkSizeId" 2]) ∧
    push_new_drink envWriteFail3 3 true 2 = (.ok (.NOK, none),
      [.writeB "newOrderUseIce" true, .writeI "newOrderDrinkSizeId" 2,
       .writeI "newOrderDrinkTypeId" 3]) ∧
    push_new_drink envWriteFail4 3 true 2 = (.ok (.NOK, none),
      [.writeB "newOrderUseIce" true, .writeI "newOrderDrinkSizeId" 2,
       .writeI "newOrderDrinkTypeId" 3,
       .writeB "pushNewOrderToQueue" true]) ∧
    (push_new_drink envOk 3 true 2).2.take 4 =
      [.writeB "newOrderUseIce" true, .writeI "newOrderDrinkSizeId" 2,
       .writeI "newOrderDrinkTypeId" 3,
       .writeB "pushNewOrderToQueue" true] :=
  ⟨push_write_sequence_spec.1 envWriteFail1 3 true 2 "Fail" rfl,
   push_write_sequence_spec.2.1 envWriteFail2 3 true 2 "Fail" rfl rfl,
   push_write_sequence_spec.2.2.1 envWriteFail3 3 true 2 "Fail" rfl rfl rfl,
   push_write_sequence_spec.2.2.2.1 envWriteFail4 3 true 2 "Fail"
     rfl rfl rfl rfl,
   (push_write_sequence_spec.2.2.2.2.1 envOk 3 true 2 rfl rfl rfl rfl).1⟩

/-- Environment in which the trigger clears immediately but the session is
flagged disconnected. -/
def envAckDisconnected : OpcEnv :=
  { envOk with connected := false, poll_trigger := fun _ => .ok false }

/-- C7 counterexample: with the session flagged disconnected, the trigger
flag reads back `false` on the very first poll, yet `push_new_drink` does
NOT read the two acknowledgement nodes and does not return their values —
the `connected` guard of `get_new_order_status` yields
`(NO_CONNECTION, None)`
and the access log contains no acknowledgement reads. -/
theorem push_ack_cex :
    push_new_drink envAckDisconnected 3 false 1 =
      (.ok (.NO_CONNECTION, none),
       [.writeB "newOrderUseIce" false, .writeI "newOrderDrinkSizeId" 1,
        .writeI "newOrderDrinkTypeId" 3, .writeB "pushNewOrderToQueue" true,
        .readN "pushNewOrderToQueue"]) := by
  simp [push_new_drink, push_poll_loop, get_new_order_status,
    envAckDisconnected, envOk]

/-- C7 (amended): after the settle delay the trigger node is polled every
500 ms, at most 10 times within the 5-second window.  If every poll reads
the flag still `true`, `push_new_drink` returns `(TIMEOUT, None)`
(`TIMEOUT` = `-2`) and performs no acknowledgement reads.  As soon as a
poll reads `false` the call delegates to `get_new_order_status`: when the
session is flagged connected and both acknowledgement reads succeed it
reads `orderPushedSuccessfully` and `successOrderNumber` and returns them
as the result (when `connected` is false it returns `NO_CONNECTION`
without acknowledgement reads — see the counterexample). -/
theorem push_timeout_and_ack_spec :
    (∀ (env : OpcEnv) (tid : Int) (ice : Bool) (size : Int),
      env.write_use_ice = .ok () → env.write_drink_size = .ok () →
      env.write_drink_type_id = .ok () → env.write_trigger = .ok () →
      (∀ k, k < 10 → env.poll_trigger k = .ok true) →
      push_new_drink env tid ice size =
        (.ok (.TIMEOUT, none),
         [.writeB "newOrderUseIce" ice, .writeI "newOrderDrinkSizeId" size,
          .writeI "newOrderDrinkTypeId" tid,
          .writeB "pushNewOrderToQueue" true] ++
         List.replicate 10 (.readN "pushNewOrderToQueue")) ∧
      NodeAccess.readN "orderPushedSuccessfully" ∉
        (push_new_drink env tid ice size).2 ∧
      NodeAccess.readN "successOrderNumber" ∉
        (push_new_drink env tid ice size).2) ∧
    (∀ (env : OpcEnv) (tid : Int) (ice : Bool) (size : Int) (k : Nat)
       (b : Bool) (n : Int),
      env.write_use_ice = .ok () → env.write_drink_size = .ok () →
      env.write_drink_type_id = .ok () → env.write_trigger = .ok () →
      k < 10 → (∀ j, j < k → env.poll_trigger j = .ok true) →
      env.poll_trigger k = .ok false →
      env.connected = true → env.order_pushed_successfully = .ok b →
      env.success_order_number = .ok n →
      push_new_drink env tid ice size =
        (.ok (.OK, some ⟨b, n⟩),
         [.writeB "newOrderUseIce" ice, .writeI "newOrderDrinkSizeId" size,
          .writeI "newOrderDrinkTypeId" tid,
          .writeB "pushNewOrderToQueue" true] ++
         List.replicate (k + 1) (.readN "pushNewOrderToQueue") ++
         [.readN "orderPushedSuccessfully", .readN "successOrderNumber"])) ∧
    ReturnCodes.value .TIMEOUT = -2 := by
  refine ⟨?_, ?_, rfl⟩
  · intro env tid ice size h1 h2 h3 h4 hpoll
    have hloop := push_poll_loop_all_true env 10 0 (by omega)
      (fun k _ hk => hpoll k hk)
    rw [show (500 * 0 : Nat) = 0 by ring] at hloop
    have hlog : push_new_drink env tid ice size =
        (.ok (.TIMEOUT, none),
         [.writeB "newOrderUseIce" ice, .writeI "newOrderDrinkSizeId" size,
          .writeI "newOrderDrinkTypeId" tid,
          .writeB "pushNewOrderToQueue" true] ++
         List.replicate 10 (.readN "pushNewOrderToQueue")) := by
      simp [push_new_drink, h1, h2, h3, h4, hloop]
    refine ⟨hlog, ?_, ?_⟩ <;>
      simp [hlog, List.mem_replicate]
  · intro env tid ice size k b n h1 h2 h3 h4 hk hbefore hfalse hc hob hsn
    have hloop := push_poll_loop_first_false env 10 0 k (by omega)
      (Nat.zero_le k) hk (fun i _ hi => hbefore i hi) hfalse
    rw [show (500 * 0 : Nat) = 0 by ring] at hloop
    have hgnos : get_new_order_status env =
        (.ok (.OK, some ⟨b, n⟩),
         [.readN "orderPushedSuccessfully", .readN "successOrderNumber"]) := by
      simp [get_new_order_status, hc, hob, hsn]
    rw [hgnos] at hloop
    simp only [Nat.sub_zero] at hloop
    simp [push_new_drink, h1, h2, h3, h4, hloop]

/-- Environment in which the trigger clears immediately, the session is
connected and both acknowledgement reads succeed. -/
def envAckOk : OpcEnv := { envOk with poll_trigger := fun _ => .ok false }

/-- Witness for C7: `envOk` polls `true` for the whole window → timeout
with no acknowledgement reads; `envAckOk` clears on poll 0 → the two
acknowledgement values `(true, 42)` are returned. -/
theorem push_timeout_and_ack_spec_witness :
    (push_new_drink envOk 3 false 1 =
      (.ok (.TIMEOUT, none),
       [.writeB "newOrderUseIce" false, .writeI "newOrderDrinkSizeId" 1,
        .writeI "newOrderDrinkTypeId" 3,
        .writeB "pushNewOrderToQueue" true] ++
       List.replicate 10 (.readN "pushNewOrderToQueue")) ∧
     NodeAccess.readN "orderPushedSuccessfully" ∉
       (push_new_drink envOk 3 false 1).2 ∧
     NodeAccess.readN "successOrderNumber" ∉
       (push_new_drink envOk 3 false 1).2) ∧
    push_new_drink envAckOk 3 false 1 =
      (.ok (.OK, some ⟨true, 42⟩),
       [.writeB "newOrderUseIce" false, .writeI "newOrderDrinkSizeId" 1,
        .writeI "newOrderDrinkTypeId" 3,
        .writeB "pushNewOrderToQueue" true] ++
       List.replicate 1 (.readN "pushNewOrderToQueue") ++
       [.readN "orderPushedSuccessfully", .readN "successOrderNumber"]) :=
  ⟨push_timeout_and_ack_spec.1 envOk 3 false 1 rfl rfl rfl rfl
     (fun _ _ => rfl),
   push_timeout_and_ack_spec.2.1 envAckOk 3 false 1 0 true 42 rfl rfl rfl rfl
     (by omega) (fun j hj => absurd hj (Nat.not_lt_zero j)) rfl rfl rfl rfl⟩

/-- Environment in which the polling read of the trigger node raises a
transport exception. -/
def envPollCrash : OpcEnv :=
  { envOk with poll_trigger := fun _ => .error "ConnectionError" }

/-- C5 counterexample: with all four writes succeeding but the transport
failing at the first trigger-flag poll, the exception raised inside
the polling loop of `push_new_drink` (which is not wrapped in any `try`)
propagates raw out of the domain operation instead of being converted to a
status code. -/
theorem transport_exception_cex :
    push_new_drink envPollCrash 3 false 1 =
      (.error "ConnectionError",
       [.writeB "newOrderUseIce" false, .writeI "newOrderDrinkSizeId" 1,
        .writeI "newOrderDrinkTypeId" 3, .writeB "pushNewOrderToQueue" true,
        .readN "pushNewOrderToQueue"]) := by
  simp [push_new_drink, envPollCrash, envOk, push_poll_loop]

/-- C5 (amended): the five read accessors and `get_new_order_status` catch
any transport exception raised during their node reads and convert it to
`(NOK, None)`; `push_new_drink` does the same for its four writes; but a
transport exception raised by the trigger-flag polling read inside
`push_new_drink` propagates raw to the caller (see the counterexample). -/
theorem transport_exception_policy :
    (∀ env : OpcEnv, env.connected = true →
      ((∃ e, env.queue_items = .error e) ∨
       (∃ e, env.queue_start_index = .error e) ∨
       (∃ e, env.queue_end_index = .error e) ∨
       (∃ e, env.current_queue_length = .error e) ∨
       (∃ e, env.queue_read_index = .error e)) →
      (get_queue_drinks_json env).1 = .ok (.NOK, none)) ∧
    (∀ (env : OpcEnv) (e : String), env.connected = true →
      env.drink_types = .error e →
      (get_drink_types_json env).1 = .ok (.NOK, none)) ∧
    (∀ (env : OpcEnv) (e : String), env.connected = true →
      env.pickup_drinks = .error e →
      (get_pickup_drinks_json env).1 = .ok (.NOK, none)) ∧
    (∀ (env : OpcEnv) (e : String), env.connected = true →
      env.plc_time = .error e →
      (get_current_plc_time env).1 = .ok (.NOK, none)) ∧
    (∀ env : OpcEnv, env.connected = true →
      ((∃ e, env.prep_drink 0 = .error e) ∨
       (∃ e, env.prep_startAt 0 = .error e) ∨
       (∃ e, env.prep_doneAt 0 = .error e)) →
      (get_prep_drink_json env 0).1 = .ok (.NOK, none)) ∧
    (∀ env : OpcEnv, env.connected = true →
      ((∃ e, env.prep_drink 1 = .error e) ∨
       (∃ e, env.prep_startAt 1 = .error e) ∨
       (∃ e, env.prep_doneAt 1 = .error e)) →
      (get_prep_drink_json env 1).1 = .ok (.NOK, none)) ∧
    (∀ env : OpcEnv, env.connected = true →
      ((∃ e, env.order_pushed_successfully = .error e) ∨
       (∃ e, env.success_order_number = .error e)) →
      (get_new_order_status env).1 = .ok (.NOK, none)) ∧
    (∀ (env : OpcEnv) (tid : Int) (ice : Bool) (size : Int),
      ((∃ e, env.write_use_ice = .error e) ∨
       (∃ e, env.write_drink_size = .error e) ∨
       (∃ e, env.write_drink_type_id = .error e) ∨
       (∃ e, env.write_trigger = .error e)) →
      (push_new_drink env tid ice size).1 = .ok (.NOK, none)) ∧
    (∀ (env : OpcEnv) (tid : Int) (ice : Bool) (size : Int) (e : String),
      env.write_use_ice = .ok () → env.write_drink_size = .ok () →
      env.write_drink_type_id = .ok () → env.write_trigger = .ok () →
      env.poll_trigger 0 = .error e →
      (push_new_drink env tid ice size).1 = .error e) := by
  refine ⟨?_, ?_, ?_, ?_, ?_, ?_, ?_, ?_, ?_⟩
  · intro env hc hfail
    cases h1 : env.queue_items <;>
    cases h2 : env.queue_start_index <;>
    cases h3 : env.queue_end_index <;>
    cases h4 : env.current_queue_length <;>
    cases h5 : env.queue_read_index <;>
      simp_all [get_queue_drinks_json]
  · intro env e hc h
    simp [get_drink_types_json, hc, h]
  · intro env e hc h
    simp [get_pickup_drinks_json, hc, h]
  · intro env e hc h
    simp [get_current_plc_time, hc, h]
  · intro env hc hfail
    cases h1 : env.prep_drink 0 <;>
    cases h2 : env.prep_startAt 0 <;>
    cases h3 : env.prep_doneAt 0 <;>
      simp_all [get_prep_drink_json, pyListGet_pair_zero]
  · intro env hc hfail
    cases h1 : env.prep_drink 1 <;>
    cases h2 : env.prep_startAt 1 <;>
    cases h3 : env.prep_doneAt 1 <;>
      simp_all [get_prep_drink_json, pyListGet_pair_one]
  · intro env hc hfail
    cases h1 : env.order_pushed_successfully <;>
    cases h2 : env.success_order_number <;>
      simp_all [get_new_order_status]
  · intro env tid ice size hfail
    cases h1 : env.write_use_ice <;>
    cases h2 : env.write_drink_size <;>
    cases h3 : env.write_drink_type_id <;>
    cases h4 : env.write_trigger <;>
      simp_all [push_new_drink]
  · intro env tid ice size e h1 h2 h3 h4 hpoll
    have hloop : push_poll_loop env 0 0 =
        (.error e, [.readN "pushNewOrderToQueue"]) := by
      rw [push_poll_loop.eq_def, dif_pos (by omega), hpoll]
    simp [push_new_drink, h1, h2, h3, h4, hloop]

/-- Environment in which every node read raises a transport exception. -/
def envReadFail : OpcEnv := { envOk with
  queue_items := .error "R"
  drink_types := .error "R"
  pickup_drinks := .error "R"
  plc_time := .error "R"
  prep_drink := fun _ => .error "R"
  order_pushed_successfully := .error "R" }

/-- Witness for the amended C5 on concrete failing environments. -/
theorem transport_exception_policy_witness :
    (get_queue_drinks_json envReadFail).1 = .ok (.NOK, none) ∧
    (get_drink_types_json envReadFail).1 = .ok (.NOK, none) ∧
    (get_pickup_drinks_json envReadFail).1 = .ok (.NOK, none) ∧
    (get_current_plc_time envReadFail).1 = .ok (.NOK, none) ∧
    (get_prep_drink_json envReadFail 0).1 = .ok (.NOK, none) ∧
    (get_prep_drink_json envReadFail 1).1 = .ok (.NOK, none) ∧
    (get_new_order_status envReadFail).1 = .ok (.NOK, none) ∧
    (push_new_drink envWriteFail1 3 false 1).1 = .ok (.NOK, none) ∧
    (push_new_drink envPollCrash 3 false 1).1 = .error "ConnectionError" :=
  ⟨transport_exception_policy.1 envReadFail rfl (Or.inl ⟨"R", rfl⟩),
   transport_exception_policy.2.1 envReadFail "R" rfl rfl,
   transport_exception_policy.2.2.1 envReadFail "R" rfl rfl,
   transport_exception_policy.2.2.2.1 envReadFail "R" rfl rfl,
   transport_exception_policy.2.2.2.2.1 envReadFail rfl (Or.inl ⟨"R", rfl⟩),
   transport_exception_policy.2.2.2.2.2.1 envReadFail rfl
     (Or.inl ⟨"R", rfl⟩),
   transport_exception_policy.2.2.2.2.2.2.1 envReadFail rfl
     (Or.inl ⟨"R", rfl⟩),
   transport_exception_policy.2.2.2.2.2.2.2.1 envWriteFail1 3 false 1
     (Or.inl ⟨"Fail", rfl⟩),
   transport_exception_policy.2.2.2.2.2.2.2.2 envPollCrash 3 false 1
     "ConnectionError" rfl rfl rfl rfl rfl⟩

end Robobar
